import Mathlib

/- Verification development for the NeonContests repository (a Discord music
   contest bot).  The Python sources are shallowly embedded: pure functions
   from utils.py become Lean functions, the SQLite-backed operations of
   database.py become explicit state-passing functions over list-based table
   models, and the submission pipeline of main.py becomes a function over a
   database state together with an oracle for its network effects.  Machine
   integers do not overflow in any modelled path, so Nat/Int/Rat are used
   directly; Python float timestamps are modelled as
   integers (all modelled behavior depends on timestamps only through
   subtraction and order comparisons, which integers exercise faithfully). -/

/-! ### Validator (utils.py) -/

/-- Config.MIN_CONTEST_ID_LENGTH from config.py. -/
def MIN_CONTEST_ID_LENGTH : Nat := 3

/-- Config.MAX_CONTEST_ID_LENGTH from config.py. -/
def MAX_CONTEST_ID_LENGTH : Nat := 30

/-- Config.MAX_SONG_NAME_LENGTH from config.py. -/
def MAX_SONG_NAME_LENGTH : Nat := 100

/-- Config.MAX_URL_LENGTH from config.py. -/
def MAX_URL_LENGTH : Nat := 2048

/-- Membership in the regex character class [a-zA-Z0-9-]. -/
def idChar (c : Char) : Bool := c.isAlphanum || c == '-'

/-- Tail of the Python regex ^[a-zA-Z0-9][a-zA-Z0-9-]*[a-zA-Z0-9]$ after the
first character: zero or more characters from [a-zA-Z0-9-] followed by a
final alphanumeric character. -/
def idPatTail : List Char → Bool
  | [] => false
  | [d] => d.isAlphanum
  | d :: rest => idChar d && idPatTail rest

/-- Full match of the Python regex ^[a-zA-Z0-9][a-zA-Z0-9-]*[a-zA-Z0-9]$
(which requires at least two characters). -/
def idPatternMatch : List Char → Bool
  | [] => false
  | [_] => false
  | c :: rest => c.isAlphanum && idPatTail rest

/-- Python substring test for two consecutive hyphens: the check
quote-dash-dash-quote in contest_id from utils.py. -/
def hasDoubleHyphen : List Char → Bool
  | a :: b :: rest => (a == '-' && b == '-') || hasDoubleHyphen (b :: rest)
  | _ => false

/-- Embedding of utils.validate_contest_id: rejects empty strings, enforces
the 3..30 length bounds, then requires the regex pattern (with a
single-character allowance inside the regex-failure branch, exactly as in the
source) and finally rejects consecutive hyphens. -/
def validate_contest_id (contest_id : String) : Bool :=
  let cs := contest_id.toList
  if cs.isEmpty then false
  else if cs.length < MIN_CONTEST_ID_LENGTH ∨ MAX_CONTEST_ID_LENGTH < cs.length then false
  else if idPatternMatch cs then
    if hasDoubleHyphen cs then false else true
  else if cs.length = 1 ∧ (match cs with | [c] => c.isAlphanum | _ => false) = true then true
  else false

/-! #### C4 theorems -/

/-- Helper: a nonempty list of characters from [a-zA-Z0-9-] whose last
character is alphanumeric satisfies idPatTail. -/
theorem idPatTail_of_charset : ∀ (cs : List Char), cs ≠ [] →
    (∀ c ∈ cs, c.isAlphanum ∨ c = '-') →
    (∀ l, cs.getLast? = some l → l.isAlphanum) →
    idPatTail cs = true := by
  intro cs
  induction cs with
  | nil => intro h; exact absurd rfl h
  | cons d rest ih =>
    intro _ hall hlast
    cases rest with
    | nil =>
      simp only [idPatTail]
      exact hlast d rfl
    | cons e rest' =>
      simp only [idPatTail, Bool.and_eq_true]
      constructor
      · rcases hall d (by simp) with h | h
        · simp [idChar, h]
        · simp [idChar, h]
      · exact ih (by simp) (fun c hc => hall c (by simp [hc]))
          (fun l hl => hlast l (by rw [List.getLast?_cons, hl]; rfl))

/-- Helper: no two consecutive hyphens (as a Chain' statement) implies the
source's double-hyphen substring test fails. -/
theorem hasDoubleHyphen_eq_false : ∀ (cs : List Char),
    List.Chain' (fun a b => ¬(a = '-' ∧ b = '-')) cs →
    hasDoubleHyphen cs = false := by
  intro cs
  induction cs with
  | nil => intro _; rfl
  | cons a rest ih =>
    intro hch
    cases rest with
    | nil => rfl
    | cons b rest' =>
      rw [List.chain'_cons] at hch
      simp only [hasDoubleHyphen, Bool.or_eq_false_iff, Bool.and_eq_false_iff]
      refine ⟨?_, ih hch.2⟩
      by_cases ha : a = '-'
      · by_cases hb : b = '-'
        · exact absurd ⟨ha, hb⟩ hch.1
        · right; simpa using hb
      · left; simpa using ha

/-- C4 (counterexample): the claim asserts that validate_contest_id returns
true for any single alphanumeric character such as the one-character string
consisting of the letter a; in the source the length check (3..30) runs
before the single-character allowance, so the function returns false. The
repository's own test (test_setup.py) also expects false here. -/
theorem validate_contest_id_single_char_counterexample :
    validate_contest_id ("a") = false := by decide

/-- C4 (amended): validate_contest_id returns true for every string of length
3 to 30 made of alphanumerics and hyphens with no leading hyphen, no trailing
hyphen, and no consecutive hyphens; it returns false for every
single-character string (the length guard precedes the single-character
allowance, making that branch dead code), and false on the dash-dash-x,
x-dash-dash-y, empty, and 31-character inputs. -/
theorem validate_contest_id_amended :
    (∀ cs : List Char, 3 ≤ cs.length → cs.length ≤ 30 →
      (∀ c ∈ cs, c.isAlphanum ∨ c = '-') →
      cs.head? ≠ some '-' →
      (∀ l, cs.getLast? = some l → l ≠ '-') →
      List.Chain' (fun a b => ¬(a = '-' ∧ b = '-')) cs →
      validate_contest_id (String.mk cs) = true)
    ∧ (∀ c : Char, validate_contest_id (String.mk [c]) = false)
    ∧ validate_contest_id ("--x") = false
    ∧ validate_contest_id ("x--y") = false
    ∧ validate_contest_id ("") = false
    ∧ (∀ s : String, s.length = 31 → validate_contest_id s = false) := by
  refine ⟨?_, ?_, by decide, by decide, by decide, ?_⟩
  · intro cs h3 h30 hall hhead hlast hchain
    have hne : cs ≠ [] := by
      intro h; rw [h] at h3; simp at h3
    have htl : (String.mk cs).toList = cs := rfl
    have hpat : idPatternMatch cs = true := by
      cases cs with
      | nil => exact absurd rfl hne
      | cons c rest =>
        cases rest with
        | nil => simp at h3
        | cons e rest' =>
          simp only [idPatternMatch, Bool.and_eq_true]
          constructor
          · rcases hall c (by simp) with h | h
            · exact h
            · exfalso; apply hhead; rw [h]; rfl
          · apply idPatTail_of_charset _ (by simp)
              (fun x hx => hall x (by simp [hx]))
            intro l hl
            have hlc : (c :: e :: rest').getLast? = some l := by
              rw [List.getLast?_cons, hl]; rfl
            have hne2 := hlast l hlc
            have hmem : l ∈ (c :: e :: rest') := by
              rcases List.mem_getLast?_eq_getLast (Option.mem_def.mpr hlc) with ⟨hh, rfl⟩
              exact List.getLast_mem hh
            rcases hall l hmem with h | h
            · exact h
            · exact absurd h hne2
    have hdh : hasDoubleHyphen cs = false := hasDoubleHyphen_eq_false cs hchain
    simp only [validate_contest_id, htl]
    rw [if_neg (by simp [hne]),
      if_neg (by simp only [MIN_CONTEST_ID_LENGTH, MAX_CONTEST_ID_LENGTH]; omega),
      if_pos hpat, if_neg (by simp [hdh])]
  · intro c
    have htl : (String.mk [c]).toList = [c] := rfl
    simp only [validate_contest_id, htl]
    rw [if_neg (by simp), if_pos (by simp [MIN_CONTEST_ID_LENGTH])]
  · intro s hlen
    have hlen' : s.toList.length = 31 := hlen
    simp only [validate_contest_id]
    rw [if_neg (by simp [← List.length_pos_iff_ne_nil, List.isEmpty_iff]; omega),
      if_pos (by simp only [MIN_CONTEST_ID_LENGTH, MAX_CONTEST_ID_LENGTH]; omega)]

/-- C4 witness: the amended theorem applied at concrete inputs. -/
theorem validate_contest_id_amended_witness :
    validate_contest_id (String.mk ['a', 'b', 'c']) = true
    ∧ validate_contest_id (String.mk ['q']) = false
    ∧ validate_contest_id (String.mk (List.replicate 31 'z')) = false := by
  refine ⟨validate_contest_id_amended.1 ['a', 'b', 'c'] (by decide) (by decide)
    (by decide) (by decide) (by decide) (by simp [List.chain'_cons]),
    validate_contest_id_amended.2.1 'q',
    validate_contest_id_amended.2.2.2.2.2 _ (by decide)⟩

/-! ### In-memory rate limiter (utils.py RateLimiter) -/

/-- Association-list model of a Python dict from user id to a list of call
timestamps: lookup of a key. -/
def dLookup : List (Int × List ℤ) → Int → Option (List ℤ)
  | [], _ => none
  | (k, v) :: rest, u => if k = u then some v else dLookup rest u

/-- Association-list model of dict assignment: replace in place, or append a
new binding at the end (Python dicts keep insertion order). -/
def dSet : List (Int × List ℤ) → Int → List ℤ → List (Int × List ℤ)
  | [], u, v => [(u, v)]
  | (k, w) :: rest, u, v => if k = u then (u, v) :: rest else (k, w) :: dSet rest u v

/-- State of utils.RateLimiter: max_calls, time_window (seconds), and the
defaultdict(list) of per-user call timestamps. -/
structure RateLimiter where
  maxCalls : Nat
  timeWindow : ℤ
  calls : List (Int × List ℤ)
deriving DecidableEq

/-- Access self.calls[user_id] on the defaultdict: a missing key is inserted
with an empty list, exactly as collections.defaultdict does. -/
def dGet (st : RateLimiter) (u : Int) : List ℤ × RateLimiter :=
  match dLookup st.calls u with
  | some v => (v, st)
  | none => ([], { st with calls := dSet st.calls u [] })

/-- Embedding of RateLimiter.is_allowed: reads the user's timestamps through
the defaultdict, stores back the list of timestamps still inside the window
(now - t < time_window), then appends the current time and returns true when
the retained count is below max_calls, and otherwise returns false. -/
def is_allowed (st : RateLimiter) (now : ℤ) (u : Int) : Bool × RateLimiter :=
  let pr := dGet st u
  let kept := pr.1.filter (fun t => now - t < st.timeWindow)
  let st2 := { pr.2 with calls := dSet pr.2.calls u kept }
  if kept.length < st.maxCalls then
    (true, { st2 with calls := dSet st2.calls u (kept ++ [now]) })
  else
    (false, st2)

/-- Minimum of a list of rationals, Python's min on a nonempty list (the
source only calls it on nonempty lists; the empty case is arbitrary). -/
def listMin : List ℤ → ℤ
  | [] => 0
  | x :: xs => xs.foldl min x

/-- Embedding of RateLimiter.get_remaining_time: 0 when the user has no
recorded calls (the membership test short-circuits, so the defaultdict is
never grown), otherwise max 0 (oldest + time_window - now). -/
def get_remaining_time (st : RateLimiter) (now : ℤ) (u : Int) : ℤ × RateLimiter :=
  if (dLookup st.calls u).isNone then (0, st)
  else
    let pr := dGet st u
    if pr.1.isEmpty then (0, pr.2)
    else (max 0 ((listMin pr.1 + st.timeWindow) - now), pr.2)

/-- Spec-side view of the pruning step: the user's recorded timestamps that
are still strictly inside the window at time now. -/
def prunedCalls (st : RateLimiter) (now : ℤ) (u : Int) : List ℤ :=
  ((dLookup st.calls u).getD []).filter (fun t => now - t < st.timeWindow)

/-- Lookup after setting the same key. -/
theorem dLookup_dSet_self : ∀ (l : List (Int × List ℤ)) (u : Int) (v : List ℤ),
    dLookup (dSet l u v) u = some v := by
  intro l u v
  induction l with
  | nil => simp [dSet, dLookup]
  | cons p rest ih =>
    by_cases h : p.1 = u
    · simp [dSet, dLookup, h]
    · simp [dSet, dLookup, h, ih]

/-- Lookup after setting a different key. -/
theorem dLookup_dSet_other : ∀ (l : List (Int × List ℤ)) (u w : Int) (v : List ℤ),
    w ≠ u → dLookup (dSet l u v) w = dLookup l w := by
  intro l u w v hw
  induction l with
  | nil =>
    simp only [dSet, dLookup]
    rw [if_neg (fun h : u = w => hw h.symm)]
  | cons p rest ih =>
    by_cases h : p.1 = u
    · simp only [dSet, if_pos h, dLookup]
      rw [if_neg (fun h2 : u = w => hw h2.symm),
        if_neg (fun h2 : p.1 = w => hw (h.symm.trans h2).symm)]
    · simp only [dSet, if_neg h, dLookup]
      rw [ih]

/-- The defaultdict read leaves the recorded lists of every key unchanged
(a missing key only acquires an empty list). -/
theorem dGet_fst (st : RateLimiter) (u : Int) :
    (dGet st u).1 = (dLookup st.calls u).getD [] := by
  unfold dGet
  cases h : dLookup st.calls u <;> simp [h]

/-- Reading an existing key does not change the state at all. -/
theorem dGet_of_mem (st : RateLimiter) (u : Int) (v : List ℤ)
    (h : dLookup st.calls u = some v) : dGet st u = (v, st) := by
  unfold dGet; rw [h]

/-- Reading a key always leaves every lookup result unchanged. -/
theorem dGet_lookup (st : RateLimiter) (u w : Int) :
    dLookup (dGet st u).2.calls w = if w = u then some ((dLookup st.calls u).getD []) else dLookup st.calls w := by
  unfold dGet
  cases h : dLookup st.calls u with
  | some v =>
    by_cases hw : w = u <;> simp [hw, h]
  | none =>
    by_cases hw : w = u
    · subst hw; simp [h, dLookup_dSet_self]
    · simp [hw, dLookup_dSet_other _ _ _ _ hw]

/-- The defaultdict read preserves maxCalls and timeWindow. -/
theorem dGet_params (st : RateLimiter) (u : Int) :
    (dGet st u).2.maxCalls = st.maxCalls ∧ (dGet st u).2.timeWindow = st.timeWindow := by
  unfold dGet
  cases h : dLookup st.calls u <;> simp [h]

/-- Characterization of is_allowed in terms of the pruned timestamp list. -/
theorem is_allowed_eq (st : RateLimiter) (now : ℤ) (u : Int) :
    is_allowed st now u =
      if (prunedCalls st now u).length < st.maxCalls then
        (true, { (dGet st u).2 with
          calls := dSet (dSet (dGet st u).2.calls u (prunedCalls st now u)) u
            (prunedCalls st now u ++ [now]) })
      else
        (false, { (dGet st u).2 with
          calls := dSet (dGet st u).2.calls u (prunedCalls st now u) }) := by
  have hf : List.filter (fun t => decide (now - t < st.timeWindow)) (dGet st u).1 =
      prunedCalls st now u := by
    rw [dGet_fst]; rfl
  simp only [is_allowed, hf]

/-- Concrete rate limiter with max_calls 5 and time_window 60, as constructed
for submissions in main.py. -/
def rlDemo : RateLimiter := { maxCalls := 5, timeWindow := 60, calls := [] }

/-- First demo call at time 0 by user 7. -/
def rlA : Bool × RateLimiter := is_allowed rlDemo 0 7

/-- Second demo call at time 10. -/
def rlB : Bool × RateLimiter := is_allowed rlA.2 10 7

/-- Third demo call at time 20. -/
def rlC : Bool × RateLimiter := is_allowed rlB.2 20 7

/-- Fourth demo call at time 30. -/
def rlD : Bool × RateLimiter := is_allowed rlC.2 30 7

/-- Fifth demo call at time 40. -/
def rlE : Bool × RateLimiter := is_allowed rlD.2 40 7

/-- Sixth demo call at time 50, still inside the window of all five calls. -/
def rlF : Bool × RateLimiter := is_allowed rlE.2 50 7

/-- Seventh demo call at time 111, after the window has fully elapsed. -/
def rlG : Bool × RateLimiter := is_allowed rlF.2 111 7

/-- C5: is_allowed first discards the user's timestamps outside the window,
returns true and records the current timestamp exactly when fewer than
max_calls remain, otherwise returns false recording only the pruned list;
other users' entries and the limiter parameters are untouched.  With
max_calls 5 and window 60, five calls in the window succeed, the sixth fails,
and a call after the window has fully elapsed succeeds again. -/
theorem is_allowed_spec :
    (∀ (st : RateLimiter) (now : ℤ) (u : Int),
      ((is_allowed st now u).1 = true ↔ (prunedCalls st now u).length < st.maxCalls)
      ∧ dLookup (is_allowed st now u).2.calls u =
          some (if (prunedCalls st now u).length < st.maxCalls
            then prunedCalls st now u ++ [now] else prunedCalls st now u)
      ∧ (∀ v, v ≠ u → dLookup (is_allowed st now u).2.calls v = dLookup st.calls v)
      ∧ (is_allowed st now u).2.maxCalls = st.maxCalls
      ∧ (is_allowed st now u).2.timeWindow = st.timeWindow)
    ∧ rlA.1 = true ∧ rlB.1 = true ∧ rlC.1 = true ∧ rlD.1 = true ∧ rlE.1 = true
    ∧ rlF.1 = false ∧ rlG.1 = true := by
  refine ⟨?_, by decide, by decide, by decide, by decide, by decide, by decide, by decide⟩
  intro st now u
  rw [is_allowed_eq]
  by_cases hlt : (prunedCalls st now u).length < st.maxCalls
  · simp only [if_pos hlt]
    refine ⟨by simp [hlt], by rw [dLookup_dSet_self], ?_, ?_, ?_⟩
    · intro v hv
      show dLookup (dSet (dSet (dGet st u).2.calls u _) u _) v = _
      rw [dLookup_dSet_other _ _ _ _ hv, dLookup_dSet_other _ _ _ _ hv,
        dGet_lookup, if_neg hv]
    · exact (dGet_params st u).1
    · exact (dGet_params st u).2
  · simp only [if_neg hlt]
    refine ⟨by simp [hlt], by rw [dLookup_dSet_self], ?_, ?_, ?_⟩
    · intro v hv
      show dLookup (dSet (dGet st u).2.calls u _) v = _
      rw [dLookup_dSet_other _ _ _ _ hv, dGet_lookup, if_neg hv]
    · exact (dGet_params st u).1
    · exact (dGet_params st u).2

/-- C5 witness: the general statement applied at a concrete state, user, and
other user. -/
theorem is_allowed_spec_witness :
    (is_allowed rlDemo 0 7).1 = true
    ∧ dLookup (is_allowed rlDemo 0 7).2.calls 8 = dLookup rlDemo.calls 8 := by
  refine ⟨(is_allowed_spec.1 rlDemo 0 7).1.mpr (by decide),
    (is_allowed_spec.1 rlDemo 0 7).2.2.1 8 (by decide)⟩

/-- C10: get_remaining_time leaves the limiter state completely unchanged
(it neither prunes nor records), returns a non-negative duration, and
returns 0 when the user has no recorded calls. -/
theorem get_remaining_time_spec :
    ∀ (st : RateLimiter) (now : ℤ) (u : Int),
      (get_remaining_time st now u).2 = st
      ∧ 0 ≤ (get_remaining_time st now u).1
      ∧ ((dLookup st.calls u).getD [] = [] → (get_remaining_time st now u).1 = 0) := by
  intro st now u
  cases h : dLookup st.calls u with
  | none => simp [get_remaining_time, h]
  | some v =>
    have hg : dGet st u = (v, st) := dGet_of_mem st u v h
    cases v with
    | nil => simp [get_remaining_time, h, hg]
    | cons x xs =>
      have hr : get_remaining_time st now u =
          (max 0 ((listMin (x :: xs) + st.timeWindow) - now), st) := by
        simp [get_remaining_time, h, hg]
      rw [hr]
      exact ⟨rfl, le_max_left 0 _, by intro hc; simp [h] at hc⟩

/-- C10 witness: applied at a concrete limiter state for a user with no
recorded calls. -/
theorem get_remaining_time_spec_witness :
    (get_remaining_time { maxCalls := 5, timeWindow := 60, calls := [(3, [10])] } 42 9).2 =
      { maxCalls := 5, timeWindow := 60, calls := [(3, [10])] }
    ∧ (get_remaining_time { maxCalls := 5, timeWindow := 60, calls := [(3, [10])] } 42 9).1 = 0 := by
  refine ⟨(get_remaining_time_spec _ 42 9).1, (get_remaining_time_spec _ 42 9).2.2 (by decide)⟩

/-! ### Persisted rate limiter (database.py check_rate_limit) -/

/-- Row of the rate_limits table: (user_id, action) is the primary key. -/
structure RLRow where
  user_id : Int
  action : String
  count : Nat
  window_start : ℤ
deriving DecidableEq

/-- Error-injection oracle for the three storage operations performed by
check_rate_limit (the DELETE of old entries, the SELECT of the current count,
and the upsert).  A true flag makes the corresponding operation raise. -/
structure RLFail where
  failDelete : Bool
  failSelect : Bool
  failUpsert : Bool
deriving DecidableEq

/-- The upsert of check_rate_limit: INSERT a fresh (count 1, window_start now)
row, ON CONFLICT on the (user_id, action) key increment count (the stored
window_start is not changed by the update, as in the source SQL). -/
def upsertRL (tbl : List RLRow) (u : Int) (a : String) (now : ℤ) : List RLRow :=
  if tbl.any (fun r => r.user_id == u && r.action == a) then
    tbl.map (fun r => if r.user_id == u && r.action == a then
      { r with count := r.count + 1 } else r)
  else
    tbl ++ [{ user_id := u, action := a, count := 1, window_start := now }]

/-- Body of database.check_rate_limit inside the with-block, in the Except
monad: delete entries older than the window, read the caller's current count,
reject when it has reached the limit, otherwise record the call.  Each
storage operation may raise, controlled by the oracle. -/
def check_rate_limit_attempt (f : RLFail) (tbl : List RLRow) (now : ℤ)
    (u : Int) (a : String) (limit : Nat) (windowMinutes : ℤ) :
    Except Unit (Bool × List RLRow) :=
  let ws := now - windowMinutes * 60
  if f.failDelete then .error () else
  let tbl1 := tbl.filter (fun r => !(decide (r.window_start < ws)))
  if f.failSelect then .error () else
  match tbl1.find? (fun r => r.user_id == u && r.action == a && decide (ws < r.window_start)) with
  | some r =>
    if limit ≤ r.count then .ok (false, tbl1)
    else if f.failUpsert then .error ()
    else .ok (true, upsertRL tbl1 u a now)
  | none =>
    if f.failUpsert then .error ()
    else .ok (true, upsertRL tbl1 u a now)

/-- Embedding of database.check_rate_limit: any exception from the storage
operations is caught, the transaction is rolled back by get_db (so the table
reverts to its initial contents), and True is returned so the caller is not
blocked. -/
def check_rate_limit (f : RLFail) (tbl : List RLRow) (now : ℤ)
    (u : Int) (a : String) (limit : Nat) (windowMinutes : ℤ) : Bool × List RLRow :=
  match check_rate_limit_attempt f tbl now u a limit windowMinutes with
  | .error _ => (true, tbl)
  | .ok r => r

/-- C6: whenever any storage operation during the check raises, the persisted
rate limiter fails open: check_rate_limit returns true (the action is
allowed), the table is left as it was, and no error reaches the caller (the
return type of the embedded function is error-free by construction). -/
theorem check_rate_limit_fail_open :
    ∀ (f : RLFail) (tbl : List RLRow) (now : ℤ) (u : Int) (a : String)
      (limit : Nat) (windowMinutes : ℤ) (e : Unit),
      check_rate_limit_attempt f tbl now u a limit windowMinutes = .error e →
      check_rate_limit f tbl now u a limit windowMinutes = (true, tbl) := by
  intro f tbl now u a limit windowMinutes e h
  unfold check_rate_limit
  rw [h]

/-- C6 witness: a failing SELECT on a concrete table still allows the call. -/
theorem check_rate_limit_fail_open_witness :
    check_rate_limit { failDelete := false, failSelect := true, failUpsert := false }
      [{ user_id := 5, action := ("submission"), count := 9, window_start := 0 }]
      30 5 ("submission") 3 1 =
      (true, [{ user_id := 5, action := ("submission"), count := 9, window_start := 0 }]) :=
  check_rate_limit_fail_open _ _ 30 5 _ 3 1 () rfl

/-! ### Schema migration engine (database.py migrate_db)

The engine issues SQL text to SQLite.  The statement forms appearing in
init_db and in the migrations list are modelled as a closed datatype with
SQLite's semantics: CREATE TABLE IF NOT EXISTS and CREATE INDEX IF NOT
EXISTS are no-ops when the object exists; a plain ALTER TABLE ... ADD COLUMN
raises a duplicate-column error when the column exists; and ALTER TABLE ...
ADD COLUMN IF NOT EXISTS is not part of SQLite's ALTER TABLE grammar, so
SQLite rejects it with a syntax error (OperationalError near EXISTS) that
does not mention a duplicate column.  PRAGMA user_version writes are
transactional, so a rolled-back step also rolls the version back. -/

/-- A table of the schema model: its name and column list. -/
structure Table where
  name : String
  cols : List String
deriving DecidableEq

/-- Schema state: tables and index names. -/
structure Schema where
  tables : List Table
  indexes : List String
deriving DecidableEq

/-- Errors surfaced by executing a statement. -/
inductive SqlErr where
  | duplicateColumn
  | syntaxError
  | noSuchTable
deriving DecidableEq

/-- The statement forms used by init_db and migrate_db. -/
inductive Stmt where
  | createTableIfNotExists (name : String) (cols : List String)
  | createIndexIfNotExists (name : String)
  | alterTableAddColumn (table col : String)
  | alterTableAddColumnIfNotExists (table col : String)
deriving DecidableEq

/-- SQLite execution of one statement against a schema. -/
def execStmt : Stmt → Schema → Except SqlErr Schema
  | .createTableIfNotExists n cs, sch =>
    if sch.tables.any (fun t => t.name == n) then .ok sch
    else .ok { sch with tables := sch.tables ++ [{ name := n, cols := cs }] }
  | .createIndexIfNotExists n, sch =>
    if sch.indexes.contains n then .ok sch
    else .ok { sch with indexes := sch.indexes ++ [n] }
  | .alterTableAddColumn t c, sch =>
    match sch.tables.find? (fun tb => tb.name == t) with
    | none => .error .noSuchTable
    | some tb =>
      if tb.cols.contains c then .error .duplicateColumn
      else .ok { sch with tables := sch.tables.map (fun tb2 =>
        if tb2.name == t then { tb2 with cols := tb2.cols ++ [c] } else tb2) }
  | .alterTableAddColumnIfNotExists _ _, _ => .error .syntaxError

/-- One migration step as executed by migrate_db: statements run in order;
a duplicateColumn error is logged and skipped (the source's graceful
handling); any other error aborts the step. -/
def applyStep : List Stmt → Schema → Except SqlErr Schema
  | [], sch => .ok sch
  | s :: rest, sch =>
    match execStmt s sch with
    | .ok sch2 => applyStep rest sch2
    | .error .duplicateColumn => applyStep rest sch
    | .error e => .error e

/-- CURRENT_VERSION from database.py. -/
def CURRENT_VERSION : Nat := 3

/-- The migrations list of database.py (versions 1 to 3). -/
def migrations : List (List Stmt) :=
  [ [ .alterTableAddColumnIfNotExists ("contests") ("voting_enabled"),
      .alterTableAddColumnIfNotExists ("submissions") ("vote_count") ],
    [ .createTableIfNotExists ("contest_analytics")
        [("analytics_id"), ("contest_id"), ("date"), ("views"), ("unique_viewers"),
         ("submissions_count"), ("votes_count")],
      .createIndexIfNotExists ("idx_analytics_contest_date") ],
    [ .createTableIfNotExists ("user_preferences")
        [("user_id"), ("notify_on_vote"), ("notify_on_contest_end"),
         ("preferred_platform"), ("created_at"), ("updated_at")],
      .createTableIfNotExists ("notifications")
        [("notification_id"), ("user_id"), ("type"), ("message"), ("read"), ("created_at")],
      .createIndexIfNotExists ("idx_notifications_user_unread") ] ]

/-- Persisted store for the migration engine: schema plus the stored
PRAGMA user_version. -/
structure MigDb where
  schema : Schema
  version : Nat
deriving DecidableEq

/-- The migration loop of migrate_db over fuel many remaining steps: apply
the step at index version inside an exclusive transaction; on success
advance the stored version by one and commit; on failure roll back (store
unchanged) and halt, surfacing the error. -/
def migrateSteps (migs : List (List Stmt)) : Nat → MigDb → MigDb × Option SqlErr
  | 0, st => (st, none)
  | fuel + 1, st =>
    match applyStep (migs.getD st.version []) st.schema with
    | .error e => (st, some e)
    | .ok sch2 => migrateSteps migs fuel { schema := sch2, version := st.version + 1 }

/-- Embedding of database.migrate_db: return immediately when the stored
version is at least CURRENT_VERSION, otherwise run the loop over the range
from the current version up to min (number of migrations) CURRENT_VERSION. -/
def migrate_db (st : MigDb) : MigDb × Option SqlErr :=
  if CURRENT_VERSION ≤ st.version then (st, none)
  else migrateSteps migrations (min migrations.length CURRENT_VERSION - st.version) st

/-- The base schema created by init_db (version 0 of a fresh store). -/
def initSchema : Schema :=
  { tables :=
      [ { name := ("contests"),
          cols := [("contest_id"), ("public_channel_id"), ("review_channel_id"),
            ("allowed_platforms"), ("max_submissions_per_user"), ("is_open"),
            ("status"), ("created_at"), ("created_by"), ("description"),
            ("start_date"), ("end_date"), ("voting_end_date"), ("prize_description")] },
        { name := ("submissions"),
          cols := [("submission_id"), ("contest_id"), ("user_id"), ("user_name"),
            ("song_name"), ("platform"), ("suno_url"), ("public_message_id"),
            ("review_message_id"), ("created_at"), ("metadata")] },
        { name := ("votes"),
          cols := [("vote_id"), ("submission_id"), ("user_id"), ("created_at")] },
        { name := ("audit_log"),
          cols := [("log_id"), ("user_id"), ("action"), ("details"),
            ("ip_address"), ("created_at")] },
        { name := ("rate_limits"),
          cols := [("user_id"), ("action"), ("count"), ("window_start")] } ],
    indexes :=
      [("idx_submissions_contest_user"), ("idx_submissions_created"),
       ("idx_votes_submission"), ("idx_audit_user_action"),
       ("idx_contests_status"), ("idx_rate_limits_window")] }

/-- Executing a step whose listed statements start with a prefix that
succeeds continues from the prefix's resulting schema. -/
theorem applyStep_append : ∀ (pre rest : List Stmt) (sch sch2 : Schema),
    applyStep pre sch = .ok sch2 →
    applyStep (pre ++ rest) sch = applyStep rest sch2 := by
  intro pre
  induction pre with
  | nil =>
    intro rest sch sch2 h
    simp only [applyStep] at h
    cases h
    simp
  | cons s pre' ih =>
    intro rest sch sch2 h
    simp only [applyStep, List.cons_append] at h ⊢
    cases he : execStmt s sch with
    | ok sch3 => rw [he] at h; exact ih rest sch3 sch2 h
    | error e =>
      rw [he] at h
      cases e with
      | duplicateColumn => exact ih rest sch sch2 h
      | syntaxError => exact absurd h (by simp)
      | noSuchTable => exact absurd h (by simp)

/-- C7: if some statement of the step executed by migrate() fails with an
error other than the idempotent duplicate-column condition (every earlier
statement of the step having run), then the whole step is rolled back —
schema and stored version are exactly as before the step — and the engine
halts surfacing the error, attempting no later step. -/
theorem migrate_step_failure_rolls_back :
    ∀ (migs : List (List Stmt)) (st : MigDb) (fuel : Nat) (pre post : List Stmt)
      (s : Stmt) (sch2 : Schema) (e : SqlErr),
      migs.getD st.version [] = pre ++ s :: post →
      applyStep pre st.schema = .ok sch2 →
      execStmt s sch2 = .error e →
      e ≠ .duplicateColumn →
      migrateSteps migs (fuel + 1) st = (st, some e) := by
  intro migs st fuel pre post s sch2 e hsplit hpre hexec hnd
  have hstep : applyStep (migs.getD st.version []) st.schema = .error e := by
    rw [hsplit, applyStep_append pre (s :: post) st.schema sch2 hpre]
    simp only [applyStep]
    rw [hexec]
    cases e with
    | duplicateColumn => exact absurd rfl hnd
    | syntaxError => rfl
    | noSuchTable => rfl
  simp only [migrateSteps]
  rw [hstep]

/-- C7 witness: the failing statement of migration 1 on a fresh store (the
PostgreSQL-style ALTER TABLE ... ADD COLUMN IF NOT EXISTS, which SQLite
rejects with a syntax error) halts the engine with the store unchanged. -/
theorem migrate_step_failure_rolls_back_witness :
    migrateSteps migrations 3 { schema := initSchema, version := 0 } =
      ({ schema := initSchema, version := 0 }, some .syntaxError) :=
  migrate_step_failure_rolls_back migrations { schema := initSchema, version := 0 } 2
    [] [.alterTableAddColumnIfNotExists ("submissions") ("vote_count")]
    (.alterTableAddColumnIfNotExists ("contests") ("voting_enabled"))
    initSchema .syntaxError rfl rfl rfl (by decide)

/-- C8: running migrate() against a fresh store at version 0 does not bring
it to version 3: the first statement of migration 1 uses ALTER TABLE ... ADD
COLUMN IF NOT EXISTS, which SQLite rejects with a syntax error whose message
does not contain duplicate column, so the graceful skip does not apply, the
step is rolled back, and migrate() halts with the store still at version 0.
This contradicts the claim (and the code's own duplicate-column handling
shows that plain ADD COLUMN semantics were intended), so the code is wrong. -/
theorem migrate_db_fresh_store_fails :
    migrate_db { schema := initSchema, version := 0 } =
      ({ schema := initSchema, version := 0 }, some .syntaxError)
    ∧ (migrate_db { schema := initSchema, version := 0 }).1.version = 0 := by
  constructor
  · rfl
  · rfl

/-! ### URL parsing and platform handlers (platforms.py, utils.validate_url) -/

/-- Literal pattern match at the head of a character list. -/
def leadsWith : List Char → List Char → Bool
  | [], _ => true
  | _ :: _, [] => false
  | a :: as, b :: bs => a == b && leadsWith as bs

/-- Python substring containment (the operator in) on character lists. -/
def occursIn (pat : List Char) : List Char → Bool
  | [] => leadsWith pat []
  | c :: rest => leadsWith pat (c :: rest) || occursIn pat rest

/-- Split a character list at the first occurrence of a literal marker,
returning the part before the marker and the part after it. -/
def splitAtMarker (marker : List Char) : List Char → Option (List Char × List Char)
  | [] => if leadsWith marker [] then some ([], []) else none
  | c :: rest =>
    if leadsWith marker (c :: rest) then some ([], (c :: rest).drop marker.length)
    else
      match splitAtMarker marker rest with
      | some (pre, post) => some (c :: pre, post)
      | none => none

/-- Python str.lower on a character list. -/
def lowerChars (l : List Char) : List Char := l.map Char.toLower

/-- Python str.lower. -/
def lowerStr (s : String) : String := String.mk (lowerChars s.toList)

/-- Python str.strip whitespace characters. -/
def pyWhitespace (c : Char) : Bool :=
  c == ' ' || c == '\t' || c == '\n' || c == '\r' || c.toNat == 11 || c.toNat == 12

/-- Python str.strip on a character list. -/
def stripChars (l : List Char) : List Char :=
  ((l.dropWhile pyWhitespace).reverse.dropWhile pyWhitespace).reverse

/-- Python str.split on commas. -/
def splitCommasAux : List Char → List Char → List (List Char)
  | [], acc => [acc.reverse]
  | c :: rest, acc =>
    if c == ',' then acc.reverse :: splitCommasAux rest []
    else splitCommasAux rest (c :: acc)

/-- Python str.split(',') producing the list of fields. -/
def splitCommas (l : List Char) : List (List Char) := splitCommasAux l []

/-- Model of urllib.parse.urlparse for scheme://netloc/... URLs: the
lowercased scheme and the remainder after the scheme separator.  URLs
without the separator have no netloc, which is all the modelled callers
inspect. -/
def schemeSplit (url : String) : Option (String × List Char) :=
  match splitAtMarker (("://").toList) url.toList with
  | none => none
  | some (pre, post) => some (lowerStr (String.mk pre), post)

/-- The netloc: everything after the scheme separator up to the first slash,
question mark, or hash. -/
def netlocChars (post : List Char) : List Char :=
  post.takeWhile (fun c => !(c == '/' || c == '?' || c == '#'))

/-- The parsed host of a URL, when the URL has one. -/
def netlocOf (url : String) : Option String :=
  match schemeSplit url with
  | none => none
  | some (_, post) => some (String.mk (netlocChars post))

/-- The suspicious-substring denylist of utils.validate_url (each entry is
checked with plain substring containment on the lowercased URL). -/
def suspiciousPatterns : List String :=
  ["javascript:", "data:", "file:", "ftp:", "\\\\x", "%00", "<script",
   "onclick=", "onerror="]

/-- Embedding of utils.validate_url: length bound, http(s) scheme, nonempty
netloc over a conservative charset (after removing colons), and none of the
denylisted substrings in the lowercased URL. -/
def validate_url (url : String) : Bool :=
  if url.toList.isEmpty ∨ MAX_URL_LENGTH < url.toList.length then false
  else
    match schemeSplit url with
    | none => false
    | some (scheme, post) =>
      let netloc := netlocChars post
      if !(scheme == ("http") || scheme == ("https")) then false
      else if netloc.isEmpty then false
      else
        let cleaned := netloc.filter (fun c => !(c == ':'))
        if cleaned.isEmpty then false
        else if !(cleaned.all (fun c => c.isAlphanum || c == '.' || c == '-')) then false
        else if suspiciousPatterns.any (fun p => occursIn p.toList (lowerChars url.toList)) then false
        else true

/-- Embedding of utils.validate_song_name: nonempty after trimming, at most
100 characters, and no control characters (U+0000 to U+001F, U+007F). -/
def validate_song_name (song_name : String) : Bool :=
  if song_name.toList.isEmpty then false
  else
    let t := stripChars song_name.toList
    if t.isEmpty ∨ MAX_SONG_NAME_LENGTH < t.length then false
    else if t.any (fun c => c.toNat ≤ 31 || c.toNat == 127) then false
    else true

/-- The closed set of platform handlers registered by PlatformManager, in
registration order. -/
inductive Handler where
  | suno
  | udio
  | riffusion
  | youtube
  | soundcloud
  | spotify
deriving DecidableEq

/-- Handler display name (the name attribute of each handler class). -/
def Handler.name : Handler → String
  | .suno => "Suno"
  | .udio => "Udio"
  | .riffusion => "Riffusion"
  | .youtube => "YouTube"
  | .soundcloud => "SoundCloud"
  | .spotify => "Spotify"

/-- Handler domain lists from platforms.py. -/
def Handler.domains : Handler → List String
  | .suno => ["suno.com", "suno.ai"]
  | .udio => ["udio.com"]
  | .riffusion => ["riffusion.com", "www.riffusion.com"]
  | .youtube => ["youtube.com", "youtu.be", "m.youtube.com", "www.youtube.com"]
  | .soundcloud => ["soundcloud.com", "www.soundcloud.com"]
  | .spotify => ["open.spotify.com", "spotify.com"]

/-- AsyncPlatformHandler.matches: some declared domain is a substring of the
parsed netloc (parse failures match nothing). -/
def handlerMatches (h : Handler) (url : String) : Bool :=
  match netlocOf url with
  | none => false
  | some n => h.domains.any (fun d => occursIn d.toList n.toList)

/-- The registration order of PlatformManager.handlers. -/
def handlers : List Handler :=
  [.suno, .udio, .riffusion, .youtube, .soundcloud, .spotify]

/-- PlatformManager.get_platform_handler with a cold cache: first handler
whose matches succeeds (the cache only memoizes this same computation). -/
def resolveHandler (url : String) : Option Handler :=
  handlers.find? (fun h => handlerMatches h url)

/-- Normalized metadata dictionary produced by the handlers. -/
structure Metadata where
  id : String
  title : String
  author : String
  image_url : Option String
  embed_url : String
  description : Option String := none
deriving DecidableEq

/-- Oracle for the og: meta tags BeautifulSoup extracts from a fetched page. -/
structure ScrapedPage where
  title : Option String
  image : Option String
  description : Option String
deriving DecidableEq

/-- Udio song id extraction: url.rstrip of slashes, then the segment after
the last remaining slash. -/
def udioSongId (url : String) : String :=
  let stripped := (url.toList.reverse.dropWhile (fun c => c == '/')).reverse
  String.mk ((stripped.reverse.takeWhile (fun c => !(c == '/'))).reverse)

/-- Embedding of UdioHandler.get_metadata: none when the page fetch fails;
otherwise the metadata whose embed_url is the raw submitted URL (the source
stores url itself, performing no canonicalization). -/
def udio_get_metadata (url : String) (fetched : Option ScrapedPage) : Option Metadata :=
  match fetched with
  | none => none
  | some p =>
    some { id := udioSongId url,
           title := p.title.getD ("Udio Music"),
           author := ("Udio"),
           image_url := p.image,
           embed_url := url,
           description := p.description }

/-- Characters of the YouTube video-id class [0-9A-Za-z_-]. -/
def ytIdChar (c : Char) : Bool := c.isAlphanum || c == '_' || c == '-'

/-- One YouTube id pattern: the literal marker followed by exactly 11 id
characters (the regex quantifier {11}), searched at the first occurrence of
the marker. -/
def idAfterMarker (marker : String) (url : String) : Option String :=
  match splitAtMarker marker.toList url.toList with
  | none => none
  | some (_, post) =>
    let cand := post.take 11
    if cand.length == 11 && cand.all ytIdChar then some (String.mk cand) else none

/-- Embedding of YouTubeHandler._extract_video_id: the alternation patterns
tried in source order. -/
def extract_video_id (url : String) : Option String :=
  idAfterMarker ("youtube.com/watch?v=") url
  <|> idAfterMarker ("youtu.be/") url
  <|> idAfterMarker ("youtube.com/embed/") url
  <|> idAfterMarker ("youtube.com/v/") url
  <|> idAfterMarker ("youtube.com/shorts/") url

/-- Oracle for a successful YouTube oEmbed response body. -/
structure OEmbed where
  title : Option String
  author_name : Option String
  thumbnail_url : Option String
deriving DecidableEq

/-- Embedding of YouTubeHandler.get_metadata: none without a video id; with
an oEmbed response, metadata rebuilt around the canonical watch URL; with a
failed oEmbed call, the HTML-scrape fallback, which also rebuilds the same
canonical watch URL. -/
def youtube_get_metadata (url : String) (oembed : Option OEmbed)
    (scraped : Option ScrapedPage) : Option Metadata :=
  match extract_video_id url with
  | none => none
  | some vid =>
    match oembed with
    | some d =>
      some { id := vid,
             title := d.title.getD ("YouTube Video"),
             author := d.author_name.getD ("YouTube"),
             image_url := d.thumbnail_url,
             embed_url := ("https://www.youtube.com/watch?v=") ++ vid }
    | none =>
      match scraped with
      | none => none
      | some p =>
        some { id := vid,
               title := p.title.getD ("YouTube Video"),
               author := ("YouTube"),
               image_url := some (p.image.getD
                 (("https://img.youtube.com/vi/") ++ vid ++ ("/maxresdefault.jpg"))),
               embed_url := ("https://www.youtube.com/watch?v=") ++ vid }

/-! ### Contest store and submission pipeline (main.py submit) -/

/-- Contest status values allowed by the contests table CHECK constraint. -/
inductive CStatus where
  | draft
  | active
  | voting
  | closed
deriving DecidableEq

/-- Row of the contests table (columns not read by any modelled operation —
the date and prize columns — are omitted). -/
structure Contest where
  contest_id : String
  public_channel_id : Int
  review_channel_id : Int
  allowed_platforms : Option String
  max_submissions_per_user : Nat
  status : CStatus
  created_by : Int
  description : Option String := none
deriving DecidableEq

/-- Row of the submissions table. -/
structure Submission where
  submission_id : Nat
  contest_id : String
  user_id : Int
  user_name : String
  song_name : String
  platform : String
  suno_url : String
  public_message_id : Option Int := none
  review_message_id : Option Int := none
  created_at : ℤ := 0
  metadata : Option String := none
deriving DecidableEq

/-- Row of the votes table. -/
structure Vote where
  vote_id : Nat
  submission_id : Nat
  user_id : Int
deriving DecidableEq

/-- The persisted store: contests, submissions, votes, and the AUTOINCREMENT
counter for submission ids. -/
structure Db where
  contests : List Contest
  submissions : List Submission
  votes : List Vote
  nextSubmissionId : Nat
deriving DecidableEq

/-- Result of posting the review and public messages: both message ids on
success, or the Discord error raised. -/
inductive PostResult where
  | posted (reviewMsgId publicMsgId : Int)
  | forbidden
  | httpError
deriving DecidableEq

/-- Oracle for the network effects of one submit invocation: the result of
the awaited handler.get_metadata call, whether both contest channels
resolve, and the result of posting the messages. -/
structure Env where
  metadata : Option Metadata
  channelsExist : Bool
  postResult : PostResult
deriving DecidableEq

/-- The distinct user-visible terminal outcomes of the submit command, one
per response branch in the source.  databaseError is the generic catch-all
branch (the message about a database error having occurred); there is no
duplicate-specific outcome in the source. -/
inductive Outcome where
  | rateLimited
  | invalidContestId
  | invalidSongName
  | invalidUrl
  | contestNotFoundOrClosed
  | limitExceeded
  | unsupportedPlatform
  | platformNotAllowed
  | metadataUnavailable
  | channelsMissing
  | forbiddenError
  | discordHttpError
  | databaseError
  | success (submission_id : Nat)
deriving DecidableEq

/-- Observable events of one submit run, in execution order: transaction
begin, the awaited metadata fetch, the INSERT statement, the awaited message
posting, the message-id UPDATE statement, and commit or rollback. -/
inductive Event where
  | beginTxn
  | netFetchMetadata
  | insertRow
  | netPostMessages
  | updateMessageIds
  | commitTxn
  | rollbackTxn
deriving DecidableEq

/-- Mutable state touched by submit: the in-memory submit limiter and the
store. -/
structure SubmitState where
  limiter : RateLimiter
  db : Db
deriving DecidableEq

/-- Prepend earlier events to a stage result. -/
def addEvents (pre : List Event) (r : Outcome × SubmitState × List Event) :
    Outcome × SubmitState × List Event :=
  (r.1, r.2.1, pre ++ r.2.2)

/-- The contest lookup of submit: WHERE contest_id = ? AND status IN
(active, voting). -/
def findActiveContest (db : Db) (cid : String) : Option Contest :=
  db.contests.find? (fun c =>
    c.contest_id == cid && (c.status == .active || c.status == .voting))

/-- SELECT COUNT(*) FROM submissions WHERE contest_id = ? AND user_id = ?. -/
def userSubmissionCount (db : Db) (cid : String) (uid : Int) : Nat :=
  (db.submissions.filter (fun s => s.contest_id == cid && s.user_id == uid)).length

/-- Whether an INSERT would violate the UNIQUE(contest_id, user_id, suno_url)
constraint. -/
def hasDuplicate (db : Db) (cid : String) (uid : Int) (emb : String) : Bool :=
  db.submissions.any (fun s =>
    s.contest_id == cid && s.user_id == uid && s.suno_url == emb)

/-- The allowed-platforms restriction of submit: a null or empty stored
string is falsy and allows everything; otherwise the handler name
(lowercased) must appear in the comma-separated list. -/
def platformBlocked (c : Contest) (h : Handler) : Bool :=
  match c.allowed_platforms with
  | none => false
  | some ap =>
    if ap.toList.isEmpty then false
    else !((splitCommas ap.toList).contains (lowerChars h.name.toList))

/-- INSERT of the submission row (message ids null) and AUTOINCREMENT
advance. -/
def insertSubmission (db : Db) (row : Submission) : Db :=
  { db with
    submissions := db.submissions ++ [row]
    nextSubmissionId := db.nextSubmissionId + 1 }

/-- The second UPDATE writing the posted message ids onto the row. -/
def updateMsgIds (db : Db) (sid : Nat) (rid pid : Int) : Db :=
  { db with submissions := db.submissions.map (fun r =>
      if r.submission_id == sid then
        { r with public_message_id := some pid, review_message_id := some rid }
      else r) }

/-- Stage of submit after the INSERT: resolve the channels (rollback when
missing), post both messages (rollback on discord.Forbidden or
discord.HTTPException), write the message ids, and only then COMMIT. -/
def submitPost (env : Env) (st : SubmitState) (txDb : Db) (sid : Nat) :
    Outcome × SubmitState × List Event :=
  if !env.channelsExist then (.channelsMissing, st, [.rollbackTxn])
  else
    match env.postResult with
    | .forbidden => (.forbiddenError, st, [.netPostMessages, .rollbackTxn])
    | .httpError => (.discordHttpError, st, [.netPostMessages, .rollbackTxn])
    | .posted rid pid =>
      (.success sid, { st with db := updateMsgIds txDb sid rid pid },
        [.netPostMessages, .updateMessageIds, .commitTxn])

/-- Stage of submit executing the INSERT: a unique-constraint violation
raises sqlite3.IntegrityError, which only the generic except-Exception
handler catches — rollback and the generic database-error response.
Otherwise the row is inserted into the open transaction. -/
def submitInsert (env : Env) (now : ℤ) (st : SubmitState) (_c : Contest)
    (h : Handler) (md : Metadata) (cid sname : String) (uid : Int)
    (uname : String) : Outcome × SubmitState × List Event :=
  if hasDuplicate st.db cid uid md.embed_url then
    (.databaseError, st, [.insertRow, .rollbackTxn])
  else
    let sid := st.db.nextSubmissionId
    let row : Submission :=
      { submission_id := sid
        contest_id := cid
        user_id := uid
        user_name := uname
        song_name := sname
        platform := h.name
        suno_url := md.embed_url
        created_at := now }
    addEvents [.insertRow] (submitPost env st (insertSubmission st.db row) sid)

/-- Stage of submit awaiting handler.get_metadata — inside the open
transaction, as in the source. -/
def submitMeta (env : Env) (now : ℤ) (st : SubmitState) (c : Contest)
    (h : Handler) (cid sname : String) (uid : Int) (uname : String) :
    Outcome × SubmitState × List Event :=
  addEvents [.netFetchMetadata]
    (match env.metadata with
     | none => (.metadataUnavailable, st, [.rollbackTxn])
     | some md => submitInsert env now st c h md cid sname uid uname)

/-- Stage of submit from BEGIN EXCLUSIVE on: the in-transaction per-user
count check, platform resolution, the allowed-platforms check, then the
metadata stage. -/
def submitTxn (env : Env) (now : ℤ) (st : SubmitState) (c : Contest)
    (cid sname url : String) (uid : Int) (uname : String) :
    Outcome × SubmitState × List Event :=
  addEvents [.beginTxn]
    (if c.max_submissions_per_user ≤ userSubmissionCount st.db cid uid then
      (.limitExceeded, st, [.rollbackTxn])
    else
      match resolveHandler url with
      | none => (.unsupportedPlatform, st, [.rollbackTxn])
      | some h =>
        if platformBlocked c h then (.platformNotAllowed, st, [.rollbackTxn])
        else submitMeta env now st c h cid sname uid uname)

/-- Embedding of the submit command of main.py: rate limit first (the
limiter records the attempt), then the three validators, the contest lookup,
and the transactional stages. -/
def submit (env : Env) (now : ℤ) (st : SubmitState) (cid sname url : String)
    (uid : Int) (uname : String) : Outcome × SubmitState × List Event :=
  let r := is_allowed st.limiter now uid
  let st1 : SubmitState := { st with limiter := r.2 }
  if !r.1 then (.rateLimited, st1, [])
  else if !validate_contest_id cid then (.invalidContestId, st1, [])
  else if !validate_song_name sname then (.invalidSongName, st1, [])
  else if !validate_url url then (.invalidUrl, st1, [])
  else
    match findActiveContest st1.db cid with
    | none => (.contestNotFoundOrClosed, st1, [])
    | some c => submitTxn env now st1 c cid sname url uid uname

/-! #### C1, C2, C3 theorems -/

/-- Whether an outcome is the success outcome. -/
def isSuccessOutcome : Outcome → Bool
  | .success _ => true
  | _ => false

/-- Index of the first occurrence of an event in a trace. -/
def eventIdx (e : Event) : List Event → Option Nat
  | [] => none
  | x :: rest => if x == e then some 0 else (eventIdx e rest).map (· + 1)

/-- Whether the first occurrence of event a is strictly before the first
occurrence of event b in the trace (false when either does not occur). -/
def beforeIn (tr : List Event) (a b : Event) : Bool :=
  match eventIdx a tr, eventIdx b tr with
  | some i, some j => decide (i < j)
  | _, _ => false

/-- Collapsing two event-prefix wraps. -/
theorem addEvents_addEvents (p q : List Event) (r : Outcome × SubmitState × List Event) :
    addEvents p (addEvents q r) = addEvents (p ++ q) r := by
  simp [addEvents]

/-- Any submit run that passes the rate check, the validators, the contest
lookup, the in-transaction count check, platform resolution, the platform
restriction, and the metadata fetch reaches the INSERT stage with the
transaction already open and the metadata fetch inside it. -/
theorem submit_eq_insert_stage (env : Env) (now : ℤ) (st : SubmitState)
    (c : Contest) (h : Handler) (md : Metadata) (cid sname url : String)
    (uid : Int) (uname : String)
    (h1 : (is_allowed st.limiter now uid).1 = true)
    (h2 : validate_contest_id cid = true)
    (h3 : validate_song_name sname = true)
    (h4 : validate_url url = true)
    (h5 : findActiveContest st.db cid = some c)
    (h6 : userSubmissionCount st.db cid uid < c.max_submissions_per_user)
    (h7 : resolveHandler url = some h)
    (h8 : platformBlocked c h = false)
    (h9 : env.metadata = some md) :
    submit env now st cid sname url uid uname =
      addEvents [.beginTxn, .netFetchMetadata]
        (submitInsert env now { st with limiter := (is_allowed st.limiter now uid).2 }
          c h md cid sname uid uname) := by
  have h6' : ¬(c.max_submissions_per_user ≤ userSubmissionCount st.db cid uid) :=
    not_le.mpr h6
  simp only [submit, h1, Bool.not_true, Bool.false_eq_true, if_false, h2, h3, h4]
  have hdb : ({ st with limiter := (is_allowed st.limiter now uid).2 } : SubmitState).db = st.db := rfl
  rw [show findActiveContest ({ st with limiter := (is_allowed st.limiter now uid).2 } : SubmitState).db cid = some c from by rw [hdb, h5]]
  simp only [submitTxn, hdb, h6', if_false, h7, h8, Bool.false_eq_true, submitMeta, h9,
    addEvents_addEvents, List.cons_append, List.nil_append]

/-- The Udio demo page oracle. -/
def udioPage : ScrapedPage :=
  { title := some ("Test Song"), image := none, description := none }

/-- First raw URL of the demo Udio track. -/
def u1 : String := "https://udio.com/songs/abc123"

/-- Second raw URL of the same Udio track (same stable id abc123, differing
only in host prefix and trailing-slash noise). -/
def u2 : String := "https://www.udio.com/songs/abc123/"

/-- Demo contest: active, limit 3 per user, no platform restriction. -/
def c1Contest : Contest :=
  { contest_id := "c-1", public_channel_id := 1, review_channel_id := 2,
    allowed_platforms := none, max_submissions_per_user := 3,
    status := .active, created_by := 9 }

/-- Fresh store holding only the demo contest. -/
def c1Db : Db :=
  { contests := [c1Contest], submissions := [], votes := [], nextSubmissionId := 1 }

/-- Fresh submit limiter (5 calls per 60 seconds, as in main.py). -/
def subLimiter : RateLimiter := { maxCalls := 5, timeWindow := 60, calls := [] }

/-- Initial pipeline state. -/
def c1St0 : SubmitState := { limiter := subLimiter, db := c1Db }

/-- Oracle for a submission of u1: metadata as UdioHandler produces it,
channels resolve, posting succeeds. -/
def c1Env1 : Env :=
  { metadata := udio_get_metadata u1 (some udioPage), channelsExist := true,
    postResult := .posted 100 200 }

/-- Oracle for a submission of u2. -/
def c1Env2 : Env :=
  { metadata := udio_get_metadata u2 (some udioPage), channelsExist := true,
    postResult := .posted 101 201 }

/-- First demo submission: user 42 submits u1. -/
def c1Run1 : Outcome × SubmitState × List Event :=
  submit c1Env1 0 c1St0 ("c-1") ("Ocean") u1 42 ("user42")

/-- Second demo submission: the same user submits u2, a raw-URL variant of
the same track. -/
def c1Run2 : Outcome × SubmitState × List Event :=
  submit c1Env2 1 c1Run1.2.1 ("c-1") ("Ocean") u2 42 ("user42")

/-- Third demo submission: the same user resubmits u1 itself. -/
def c1Run3 : Outcome × SubmitState × List Event :=
  submit c1Env1 2 c1Run2.2.1 ("c-1") ("Ocean") u1 42 ("user42")

/-- C1 (counterexample): with the same Udio track (stable id abc123), a
raw-URL variant is accepted as a second submission by the same user to the
same contest, because UdioHandler's embed_url is the raw URL, not a
canonical form; and resubmitting the identical URL is rejected through the
generic database-error branch (the source has no duplicate-specific
outcome), not a specific DuplicateSubmission rejection. -/
theorem duplicate_submission_counterexample :
    c1Run1.1 = .success 1
    ∧ c1Run2.1 = .success 2
    ∧ c1Run3.1 = .databaseError
    ∧ (udio_get_metadata u1 (some udioPage)).map (fun m => m.id) =
        (udio_get_metadata u2 (some udioPage)).map (fun m => m.id)
    ∧ ¬((udio_get_metadata u1 (some udioPage)).map (fun m => m.embed_url) =
        (udio_get_metadata u2 (some udioPage)).map (fun m => m.embed_url)) := by
  decide

/-- C1 (amended): when the pipeline reaches the INSERT with an embed_url
already stored for the same (contest, user), the run ends in the generic
database-error outcome with the transaction rolled back (store unchanged) —
there is no duplicate-specific rejection; the YouTube handler's embed_url
depends only on the extracted video id (so its raw-URL variants do
collide), while the Udio handler's embed_url is the raw URL itself (so its
variants do not). -/
theorem duplicate_submission_amended :
    (∀ (env : Env) (now : ℤ) (st : SubmitState) (c : Contest) (h : Handler)
       (md : Metadata) (cid sname url : String) (uid : Int) (uname : String),
      (is_allowed st.limiter now uid).1 = true →
      validate_contest_id cid = true →
      validate_song_name sname = true →
      validate_url url = true →
      findActiveContest st.db cid = some c →
      userSubmissionCount st.db cid uid < c.max_submissions_per_user →
      resolveHandler url = some h →
      platformBlocked c h = false →
      env.metadata = some md →
      hasDuplicate st.db cid uid md.embed_url = true →
      (submit env now st cid sname url uid uname).1 = .databaseError
      ∧ (submit env now st cid sname url uid uname).2.1.db = st.db
      ∧ (submit env now st cid sname url uid uname).2.2 =
          [.beginTxn, .netFetchMetadata, .insertRow, .rollbackTxn])
    ∧ (∀ (url : String) (oe : Option OEmbed) (sp : Option ScrapedPage) (md : Metadata),
        youtube_get_metadata url oe sp = some md →
        md.embed_url = ("https://www.youtube.com/watch?v=") ++ md.id)
    ∧ (∀ (url : String) (p : ScrapedPage) (md : Metadata),
        udio_get_metadata url (some p) = some md → md.embed_url = url) := by
  refine ⟨?_, ?_, ?_⟩
  · intro env now st c h md cid sname url uid uname h1 h2 h3 h4 h5 h6 h7 h8 h9 h10
    rw [submit_eq_insert_stage env now st c h md cid sname url uid uname
      h1 h2 h3 h4 h5 h6 h7 h8 h9]
    simp [submitInsert, h10, addEvents]
  · intro url oe sp md hmd
    unfold youtube_get_metadata at hmd
    cases hv : extract_video_id url with
    | none => rw [hv] at hmd; cases hmd
    | some vid =>
      rw [hv] at hmd
      cases oe with
      | some d => cases hmd; rfl
      | none =>
        cases sp with
        | none => cases hmd
        | some p => cases hmd; rfl
  · intro url p md hmd
    cases hmd; rfl

/-- C1 witness: the amended theorem applied at the concrete third demo run
(the resubmission of u1). -/
theorem duplicate_submission_amended_witness :
    (submit c1Env1 2 c1Run2.2.1 ("c-1") ("Ocean") u1 42 ("user42")).1 = .databaseError
    ∧ (submit c1Env1 2 c1Run2.2.1 ("c-1") ("Ocean") u1 42 ("user42")).2.1.db = c1Run2.2.1.db := by
  have h := duplicate_submission_amended.1 c1Env1 2 c1Run2.2.1 c1Contest .udio
    { id := ("abc123"), title := ("Test Song"), author := ("Udio"),
      image_url := none, embed_url := u1, description := none }
    ("c-1") ("Ocean") u1 42 ("user42")
    (by decide) (by decide) (by decide) (by decide) (by decide) (by decide)
    (by decide) (by decide) (by decide) (by decide)
  exact ⟨h.1, h.2.1⟩

/-- Oracle for a submission whose message posting raises discord.Forbidden
(missing permissions). -/
def c2Env : Env :=
  { metadata := udio_get_metadata u1 (some udioPage), channelsExist := true,
    postResult := .forbidden }

/-- Demo run whose posting step fails with missing permissions. -/
def c2Run : Outcome × SubmitState × List Event :=
  submit c2Env 0 c1St0 ("c-1") ("Ocean") u1 42 ("user42")

/-- C2 (counterexample): when posting to the channels raises
discord.Forbidden, the source rolls the transaction back: afterwards the
store holds no submission row at all, the caller receives the
permission-failure response — not a success carrying a warning — and the
trace ends in a rollback. -/
theorem posting_failure_counterexample :
    c2Run.1 = .forbiddenError
    ∧ c2Run.2.1.db.submissions = []
    ∧ isSuccessOutcome c2Run.1 = false
    ∧ c2Run.2.2 =
        [.beginTxn, .netFetchMetadata, .insertRow, .netPostMessages, .rollbackTxn] := by
  decide

/-- C2 (amended): for every submission attempt that reaches the
message-posting step, if posting fails (discord.Forbidden or
discord.HTTPException), the INSERT is rolled back — the store afterwards
equals the store before the attempt, so the submission row does not exist —
and the caller receives the corresponding failure outcome, not a success
with a warning. -/
theorem posting_failure_amended :
    ∀ (env : Env) (now : ℤ) (st : SubmitState) (c : Contest) (h : Handler)
      (md : Metadata) (cid sname url : String) (uid : Int) (uname : String),
      (is_allowed st.limiter now uid).1 = true →
      validate_contest_id cid = true →
      validate_song_name sname = true →
      validate_url url = true →
      findActiveContest st.db cid = some c →
      userSubmissionCount st.db cid uid < c.max_submissions_per_user →
      resolveHandler url = some h →
      platformBlocked c h = false →
      env.metadata = some md →
      hasDuplicate st.db cid uid md.embed_url = false →
      env.channelsExist = true →
      (env.postResult = .forbidden ∨ env.postResult = .httpError) →
      ((submit env now st cid sname url uid uname).1 = .forbiddenError
        ∨ (submit env now st cid sname url uid uname).1 = .discordHttpError)
      ∧ (submit env now st cid sname url uid uname).2.1.db = st.db
      ∧ isSuccessOutcome (submit env now st cid sname url uid uname).1 = false
      ∧ (submit env now st cid sname url uid uname).2.2 =
          [.beginTxn, .netFetchMetadata, .insertRow, .netPostMessages, .rollbackTxn] := by
  intro env now st c h md cid sname url uid uname h1 h2 h3 h4 h5 h6 h7 h8 h9 h10 h11 h12
  rw [submit_eq_insert_stage env now st c h md cid sname url uid uname
    h1 h2 h3 h4 h5 h6 h7 h8 h9]
  rcases h12 with h12 | h12 <;>
    simp [submitInsert, h10, submitPost, h11, h12, addEvents, isSuccessOutcome]

/-- C2 witness: the amended theorem applied at the concrete
missing-permissions run. -/
theorem posting_failure_amended_witness :
    ((submit c2Env 0 c1St0 ("c-1") ("Ocean") u1 42 ("user42")).1 = .forbiddenError
      ∨ (submit c2Env 0 c1St0 ("c-1") ("Ocean") u1 42 ("user42")).1 = .discordHttpError)
    ∧ (submit c2Env 0 c1St0 ("c-1") ("Ocean") u1 42 ("user42")).2.1.db = c1St0.db := by
  have h := posting_failure_amended c2Env 0 c1St0 c1Contest .udio
    { id := ("abc123"), title := ("Test Song"), author := ("Udio"),
      image_url := none, embed_url := u1, description := none }
    ("c-1") ("Ocean") u1 42 ("user42")
    (by decide) (by decide) (by decide) (by decide) (by decide) (by decide)
    (by decide) (by decide) (by decide) (by decide) (by decide) (Or.inl (by decide))
  exact ⟨h.1, h.2.1⟩

/-- Demo run for the pipeline ordering: identical to the first demo
submission, with every stage succeeding. -/
def c3Run : Outcome × SubmitState × List Event :=
  submit c1Env1 0 c1St0 ("c-1") ("Ocean") u1 42 ("user42")

/-- C3 (counterexample): in a fully successful run the trace is BEGIN,
metadata fetch, INSERT, message posting, message-id UPDATE, COMMIT — so the
metadata fetch does NOT complete before the transaction opens, the posting
does NOT happen after the commit, and the message-id update is part of the
same transaction rather than a separate post-commit update, refuting the
claimed ordering at this input. -/
theorem pipeline_order_counterexample :
    c3Run.2.2 =
      [.beginTxn, .netFetchMetadata, .insertRow, .netPostMessages,
       .updateMessageIds, .commitTxn]
    ∧ beforeIn c3Run.2.2 .netFetchMetadata .beginTxn = false
    ∧ beforeIn c3Run.2.2 .commitTxn .netPostMessages = false
    ∧ beforeIn c3Run.2.2 .commitTxn .updateMessageIds = false
    ∧ beforeIn c3Run.2.2 .beginTxn .netFetchMetadata = true
    ∧ beforeIn c3Run.2.2 .netPostMessages .commitTxn = true := by
  decide

/-- C3 (amended): in every fully successful submission run, the exclusive
transaction opens before the metadata fetch; the metadata fetch, the row
INSERT, the message posting, and the message-id UPDATE all occur inside the
open transaction, in that order, and the COMMIT comes last — network I/O is
awaited while the database transaction is held open, and the message ids
are written in the same transaction, not in a separate post-commit update. -/
theorem pipeline_order_amended :
    ∀ (env : Env) (now : ℤ) (st : SubmitState) (c : Contest) (h : Handler)
      (md : Metadata) (cid sname url : String) (uid : Int) (uname : String)
      (rid pid : Int),
      (is_allowed st.limiter now uid).1 = true →
      validate_contest_id cid = true →
      validate_song_name sname = true →
      validate_url url = true →
      findActiveContest st.db cid = some c →
      userSubmissionCount st.db cid uid < c.max_submissions_per_user →
      resolveHandler url = some h →
      platformBlocked c h = false →
      env.metadata = some md →
      hasDuplicate st.db cid uid md.embed_url = false →
      env.channelsExist = true →
      env.postResult = .posted rid pid →
      (submit env now st cid sname url uid uname).2.2 =
        [.beginTxn, .netFetchMetadata, .insertRow, .netPostMessages,
         .updateMessageIds, .commitTxn]
      ∧ (submit env now st cid sname url uid uname).1 =
          .success st.db.nextSubmissionId := by
  intro env now st c h md cid sname url uid uname rid pid
    h1 h2 h3 h4 h5 h6 h7 h8 h9 h10 h11 h12
  rw [submit_eq_insert_stage env now st c h md cid sname url uid uname
    h1 h2 h3 h4 h5 h6 h7 h8 h9]
  simp [submitInsert, h10, submitPost, h11, h12, addEvents]

/-- C3 witness: the amended theorem applied at the concrete successful run. -/
theorem pipeline_order_amended_witness :
    (submit c1Env1 0 c1St0 ("c-1") ("Ocean") u1 42 ("user42")).2.2 =
      [.beginTxn, .netFetchMetadata, .insertRow, .netPostMessages,
       .updateMessageIds, .commitTxn]
    ∧ (submit c1Env1 0 c1St0 ("c-1") ("Ocean") u1 42 ("user42")).1 =
        .success c1St0.db.nextSubmissionId :=
  pipeline_order_amended c1Env1 0 c1St0 c1Contest .udio
    { id := ("abc123"), title := ("Test Song"), author := ("Udio"),
      image_url := none, embed_url := u1, description := none }
    ("c-1") ("Ocean") u1 42 ("user42") 100 200
    (by decide) (by decide) (by decide) (by decide) (by decide) (by decide)
    (by decide) (by decide) (by decide) (by decide) (by decide) (by decide)

/-! ### Statistics aggregator (database.py get_contest_stats) -/

/-- Row of the leaderboard query: the selected submission columns together
with the aggregated vote count (created_at is carried for the ORDER BY). -/
structure LeaderRow where
  submission_id : Nat
  song_name : String
  user_name : String
  platform : String
  suno_url : String
  vote_count : Nat
  created_at : ℤ
deriving DecidableEq

/-- The ORDER BY of the leaderboard query: vote_count descending, ties
broken by earliest created_at. -/
def lbRel (a b : LeaderRow) : Prop :=
  b.vote_count < a.vote_count
  ∨ (a.vote_count = b.vote_count ∧ a.created_at ≤ b.created_at)

instance : DecidableRel lbRel := fun a b => by unfold lbRel; infer_instance

instance : IsTotal LeaderRow lbRel := by
  constructor
  intro a b
  unfold lbRel
  rcases lt_trichotomy a.vote_count b.vote_count with h | h | h
  · exact Or.inr (Or.inl h)
  · rcases le_total a.created_at b.created_at with hc | hc
    · exact Or.inl (Or.inr ⟨h, hc⟩)
    · exact Or.inr (Or.inr ⟨h.symm, hc⟩)
  · exact Or.inl (Or.inl h)

instance : IsTrans LeaderRow lbRel := by
  constructor
  intro a b c hab hbc
  unfold lbRel at hab hbc ⊢
  rcases hab with h1 | ⟨h1, h1c⟩ <;> rcases hbc with h2 | ⟨h2, h2c⟩
  · exact Or.inl (lt_trans h2 h1)
  · exact Or.inl (h2 ▸ h1)
  · exact Or.inl (h1 ▸ h2)
  · exact Or.inr ⟨h1.trans h2, le_trans h1c h2c⟩

/-- COUNT(v.vote_id) for one submission in the LEFT JOIN aggregation. -/
def voteCountFor (db : Db) (sid : Nat) : Nat :=
  (db.votes.filter (fun v => v.submission_id == sid)).length

/-- The rows fed to the leaderboard ORDER BY: each submission of the contest
with its aggregated vote count. -/
def voteRows (db : Db) (cid : String) : List LeaderRow :=
  (db.submissions.filter (fun s => s.contest_id == cid)).map (fun s =>
    { submission_id := s.submission_id, song_name := s.song_name,
      user_name := s.user_name, platform := s.platform, suno_url := s.suno_url,
      vote_count := voteCountFor db s.submission_id, created_at := s.created_at })

/-- The leaderboard: vote rows ordered by vote_count DESC, created_at ASC. -/
def leaderboard (db : Db) (cid : String) : List LeaderRow :=
  List.insertionSort lbRel (voteRows db cid)

/-- The votes joined to this contest's submissions. -/
def contestVotes (db : Db) (cid : String) : List Vote :=
  db.votes.filter (fun v => db.submissions.any (fun s =>
    s.submission_id == v.submission_id && s.contest_id == cid))

/-- GROUP BY platform with COUNT(*), ordered by count descending. -/
def platformCounts (subs : List Submission) : List (String × Nat) :=
  List.insertionSort (fun a b => b.2 ≤ a.2)
    (((subs.map (fun s => s.platform)).dedup).map (fun p =>
      (p, ((subs.map (fun s => s.platform)).filter (fun q => q == p)).length)))

/-- GROUP BY DATE(created_at) with COUNT(*), ordered by date (the calendar
day modelled as the timestamp divided by 86400). -/
def timelineCounts (subs : List Submission) : List (ℤ × Nat) :=
  List.insertionSort (fun a b => a.1 ≤ b.1)
    (((subs.map (fun s => s.created_at / 86400)).dedup).map (fun d =>
      (d, ((subs.map (fun s => s.created_at / 86400)).filter (fun e => e == d)).length)))

/-- The statistics dictionary assembled by get_contest_stats; the three vote
fields are present exactly when the source adds them. -/
structure ContestStats where
  contest : Contest
  total_submissions : Nat
  unique_participants : Nat
  platforms : List (String × Nat)
  submission_timeline : List (ℤ × Nat)
  votes : Option (List LeaderRow)
  total_votes : Option Nat
  unique_voters : Option Nat
deriving DecidableEq

/-- Embedding of database.get_contest_stats: none when the contest does not
exist; otherwise the counts, breakdowns, and timeline, with the leaderboard
and the vote totals added exactly when the contest status is voting or
closed. -/
def get_contest_stats (db : Db) (cid : String) : Option ContestStats :=
  match db.contests.find? (fun c => c.contest_id == cid) with
  | none => none
  | some c =>
    let subs := db.submissions.filter (fun s => s.contest_id == cid)
    if c.status == .voting || c.status == .closed then
      some { contest := c
             total_submissions := subs.length
             unique_participants := (subs.map (fun s => s.user_id)).dedup.length
             platforms := platformCounts subs
             submission_timeline := timelineCounts subs
             votes := some (leaderboard db cid)
             total_votes := some (contestVotes db cid).length
             unique_voters := some ((contestVotes db cid).map (fun v => v.user_id)).dedup.length }
    else
      some { contest := c
             total_submissions := subs.length
             unique_participants := (subs.map (fun s => s.user_id)).dedup.length
             platforms := platformCounts subs
             submission_timeline := timelineCounts subs
             votes := none
             total_votes := none
             unique_voters := none }

/-- C9: get_contest_stats returns none exactly when the contest id does not
exist; for an existing contest it always returns a snapshot (zero
submissions give zero counts and empty lists, never an error), and the
leaderboard with total votes and unique voters is included exactly when the
status is voting or closed, the leaderboard being a permutation of the
contest's vote rows sorted by vote_count descending with ties broken by
earliest created_at. -/
theorem get_contest_stats_spec :
    ∀ (db : Db) (cid : String),
      (get_contest_stats db cid = none ↔
        db.contests.find? (fun c => c.contest_id == cid) = none)
      ∧ (∀ stc, get_contest_stats db cid = some stc →
          ((stc.votes.isSome ∧ stc.total_votes.isSome ∧ stc.unique_voters.isSome)
            ↔ (stc.contest.status = .voting ∨ stc.contest.status = .closed))
          ∧ (∀ lb, stc.votes = some lb →
              List.Sorted lbRel lb
              ∧ List.Perm lb (voteRows db cid)
              ∧ stc.total_votes = some (contestVotes db cid).length)
          ∧ (db.submissions.filter (fun s => s.contest_id == cid) = [] →
              stc.total_submissions = 0 ∧ stc.unique_participants = 0
              ∧ stc.platforms = [] ∧ stc.submission_timeline = []
              ∧ (∀ lb, stc.votes = some lb → lb = []))) := by
  intro db cid
  cases hf : db.contests.find? (fun c => c.contest_id == cid) with
  | none =>
    refine ⟨by simp [get_contest_stats, hf], ?_⟩
    intro stc hstc
    rw [get_contest_stats, hf] at hstc
    cases hstc
  | some c =>
    by_cases hs : (c.status == CStatus.voting || c.status == CStatus.closed) = true
    · have hval : get_contest_stats db cid = some
        { contest := c
          total_submissions := (db.submissions.filter (fun s => s.contest_id == cid)).length
          unique_participants := ((db.submissions.filter (fun s => s.contest_id == cid)).map
            (fun s => s.user_id)).dedup.length
          platforms := platformCounts (db.submissions.filter (fun s => s.contest_id == cid))
          submission_timeline := timelineCounts (db.submissions.filter (fun s => s.contest_id == cid))
          votes := some (leaderboard db cid)
          total_votes := some (contestVotes db cid).length
          unique_voters := some ((contestVotes db cid).map (fun v => v.user_id)).dedup.length } := by
        rw [get_contest_stats, hf]
        simp only [hs, if_pos]
      have hstat : c.status = .voting ∨ c.status = .closed := by
        rcases Bool.or_eq_true_iff.mp hs with h | h
        · exact Or.inl (by simpa using h)
        · exact Or.inr (by simpa using h)
      refine ⟨by simp [hval], ?_⟩
      intro stc hstc
      rw [hval] at hstc
      cases hstc
      refine ⟨by simpa using hstat, ?_, ?_⟩
      · intro lb hlb
        cases hlb
        exact ⟨List.sorted_insertionSort lbRel (voteRows db cid),
          List.perm_insertionSort lbRel (voteRows db cid), rfl⟩
      · intro hsubs
        refine ⟨by simp [hsubs], by simp [hsubs, List.dedup_nil], by simp [platformCounts, hsubs], by simp [timelineCounts, hsubs], ?_⟩
        intro lb hlb
        cases hlb
        simp [leaderboard, voteRows, hsubs]
    · have hval : get_contest_stats db cid = some
        { contest := c
          total_submissions := (db.submissions.filter (fun s => s.contest_id == cid)).length
          unique_participants := ((db.submissions.filter (fun s => s.contest_id == cid)).map
            (fun s => s.user_id)).dedup.length
          platforms := platformCounts (db.submissions.filter (fun s => s.contest_id == cid))
          submission_timeline := timelineCounts (db.submissions.filter (fun s => s.contest_id == cid))
          votes := none
          total_votes := none
          unique_voters := none } := by
        simp [get_contest_stats, hf, hs]
      have hstat : ¬(c.status = .voting ∨ c.status = .closed) := by
        intro hcon
        apply hs
        rcases hcon with h | h <;> simp [h]
      refine ⟨by simp [hval], ?_⟩
      intro stc hstc
      rw [hval] at hstc
      cases hstc
      refine ⟨by simpa using hstat, ?_, ?_⟩
      · intro lb hlb
        cases hlb
      · intro hsubs
        refine ⟨by simp [hsubs], by simp [hsubs, List.dedup_nil], by simp [platformCounts, hsubs], by simp [timelineCounts, hsubs], ?_⟩
        intro lb hlb
        cases hlb

/-- Demo contest in voting status. -/
def statsDemoContest : Contest :=
  { contest_id := "w-1"
    public_channel_id := 3
    review_channel_id := 4
    allowed_platforms := none
    max_submissions_per_user := 1
    status := .voting
    created_by := 9 }

/-- Demo store: the voting contest with no submissions and no votes. -/
def statsDemoDb : Db :=
  { contests := [statsDemoContest]
    submissions := []
    votes := []
    nextSubmissionId := 1 }

/-- The snapshot the aggregator produces for the demo store. -/
def statsDemoStats : ContestStats :=
  { contest := statsDemoContest
    total_submissions := 0
    unique_participants := 0
    platforms := []
    submission_timeline := []
    votes := some []
    total_votes := some 0
    unique_voters := some 0 }

/-- C9 witness: the theorem applied at a concrete contest in voting status
with zero submissions. -/
theorem get_contest_stats_spec_witness :
    List.Sorted lbRel []
    ∧ List.Perm ([] : List LeaderRow) (voteRows statsDemoDb ("w-1"))
    ∧ statsDemoStats.total_submissions = 0
    ∧ statsDemoStats.unique_participants = 0 := by
  have h := (get_contest_stats_spec statsDemoDb ("w-1")).2 statsDemoStats (by decide)
  have h2 := h.2.1 [] (by decide)
  have h3 := h.2.2 (by decide)
  exact ⟨h2.1, h2.2.1, h3.1, h3.2.1⟩
